import Mathlib

/-!
Verification of the diagnosis fusion pipeline of the PraxisPro repository
(core.py, hybrid_model.py, mimic_integration.py) against its specification.

Modelling conventions:
* Python floats are modelled as exact rationals; the one-decimal rounding
  round(x, 1) is modelled as exact round-half-to-even at one decimal.
* Python dicts are modelled as insertion-ordered association lists
  (List (String × _)); updating an existing key keeps its position,
  inserting a new key appends at the end, as CPython dicts do.
* Python str.lower, str.strip, str.split are modelled by executable
  character-list functions (ASCII lowercasing, as the inputs considered
  contain no upper-case non-ASCII letters).
* Exceptions that can escape a function are modelled with Except PyErr;
  exceptions caught inside a function (try/except around int()/float())
  are modelled by Option-returning parsers.
* The external classifier (predict_proba), the MIMIC similarity lookup and
  the LLM call are modelled as function/value parameters, since they are
  external collaborators of the fusion pipeline.
* The fire-and-forget audit append (an_desci_speichern) performs IO that is
  never read back by the pipeline; it is omitted from the state model.
-/

/-! ## String utilities modelling Python primitives -/

/-- Model of Python str.lower (ASCII case folding). -/
def pyLower (s : String) : String := String.mk (s.toList.map Char.toLower)

/-- Model of Python str.strip with no arguments (drop surrounding whitespace). -/
def pyStrip (s : String) : String :=
  String.mk (((s.toList.dropWhile Char.isWhitespace).reverse.dropWhile Char.isWhitespace).reverse)

def splitCharAux (sep : Char) : List Char → List Char → List (List Char)
  | [], acc => [acc.reverse]
  | c :: t, acc => if c = sep then acc.reverse :: splitCharAux sep t [] else splitCharAux sep t (c :: acc)

/-- Model of Python str.split(sep) for a one-character separator. -/
def pySplit (s : String) (sep : Char) : List String :=
  (splitCharAux sep s.toList []).map String.mk

/-- Model of Python str.split() with no arguments: split on whitespace runs, no empty parts. -/
def pySplitWs (s : String) : List String :=
  ((splitCharAux ' ' (s.toList.map (fun c => if c.isWhitespace then ' ' else c)) []).map String.mk).filter
    (fun t => t ≠ "")

def listStarts : List Char → List Char → Bool
  | [], _ => true
  | _ :: _, [] => false
  | a :: as, b :: bs => a = b && listStarts as bs

def listInfix (pat : List Char) : List Char → Bool
  | [] => pat.isEmpty
  | c :: t => listStarts pat (c :: t) || listInfix pat t

/-- Model of the Python substring test pat in hay. -/
def strContains (hay pat : String) : Bool := listInfix pat.toList hay.toList

def breakAtAux (sep : Char) : List Char → Option (List Char × List Char)
  | [] => none
  | c :: t =>
    if c = sep then some ([], t)
    else (breakAtAux sep t).map (fun p => (c :: p.1, p.2))

/-- Model of Python s.split(sep, 1) when sep occurs in s (the "if sep in s" guard plus
the two-way split at the first occurrence); none when sep does not occur. -/
def splitFirst (s : String) (sep : Char) : Option (String × String) :=
  (breakAtAux sep s.toList).map (fun p => (String.mk p.1, String.mk p.2))

def findSubIdx : List Char → List Char → Option Nat
  | _, [] => none
  | pat, c :: t => if listStarts pat (c :: t) then some 0 else (findSubIdx pat t).map (· + 1)

/-- Model of the regex search LABEL plus whitespace plus a capture running to the first
newline or to the end of the string, searched case-insensitively; returns the capture. -/
def sectionAfter (text label : String) : Option String :=
  match findSubIdx (pyLower label).toList (pyLower text).toList with
  | none => none
  | some i =>
    let rest := (text.toList.drop (i + label.toList.length)).dropWhile Char.isWhitespace
    some (String.mk (rest.takeWhile (fun c => c ≠ '\n')))

def digitsToNat : List Char → Option Nat
  | [] => none
  | l =>
    if l.all Char.isDigit then
      some (l.foldl (fun acc c => acc * 10 + (c.toNat - 48)) 0)
    else none

/-- Model of Python int(s): strip, optional sign, decimal digits; none models ValueError. -/
def parseIntPy (s : String) : Option Int :=
  match (pyStrip s).toList with
  | '+' :: rest => (digitsToNat rest).map Int.ofNat
  | '-' :: rest => (digitsToNat rest).map (fun n => -(n : Int))
  | rest => (digitsToNat rest).map Int.ofNat

def digitsVal (l : List Char) : Nat := l.foldl (fun acc c => acc * 10 + (c.toNat - 48)) 0

def parseRatCore (cs : List Char) : Option ℚ :=
  let ip := cs.takeWhile Char.isDigit
  let rest := cs.dropWhile Char.isDigit
  match rest with
  | [] => if ip.isEmpty then none else some (digitsVal ip)
  | '.' :: fp =>
    if fp.all Char.isDigit ∧ ¬(ip.isEmpty ∧ fp.isEmpty) then
      some ((digitsVal ip : ℚ) + (digitsVal fp : ℚ) / ((10 : ℚ) ^ fp.length))
    else none
  | _ => none

/-- Model of Python float(s) for plain decimal notation; none models ValueError. -/
def parseRatPy (s : String) : Option ℚ :=
  match (pyStrip s).toList with
  | '+' :: rest => parseRatCore rest
  | '-' :: rest => (parseRatCore rest).map (fun q => -q)
  | rest => parseRatCore rest

deriving instance DecidableEq for Except

/-! ## Rounding: model of Python round(x, 1) (round half to even, one decimal) -/

/-- Round half to even to the nearest integer. -/
def rhe (q : ℚ) : ℤ :=
  let f : ℤ := Int.floor q
  if q - (f : ℚ) < 1/2 then f
  else if (1 : ℚ)/2 < q - (f : ℚ) then f + 1
  else if f % 2 = 0 then f else f + 1

/-- Model of Python round(x, 1): banker rounding at one decimal place. -/
def round1 (q : ℚ) : ℚ := ((rhe (10 * q) : ℤ) : ℚ) / 10

/-! ## Diagnosis score maps (insertion-ordered dicts) -/

abbrev DSM := List (String × ℚ)

/-- Python dict lookup d.get(k) / d[k] for association lists. -/
def dGet {α : Type} : List (String × α) → String → Option α
  | [], _ => none
  | p :: t, k => if p.1 = k then some p.2 else dGet t k

/-- Python dict lookup with default: d.get(k, v0). -/
def dGetD {α : Type} (m : List (String × α)) (k : String) (v0 : α) : α :=
  (dGet m k).getD v0

/-- Python dict assignment d[k] = v: overwrite in place, or append if absent. -/
def dset {α : Type} : List (String × α) → String → α → List (String × α)
  | [], k, v => [(k, v)]
  | p :: t, k, v => if p.1 = k then (k, v) :: t else p :: dset t k v

/-- Python sum(d.values()). -/
def sumVals (m : DSM) : ℚ := (m.map (fun p => p.2)).sum

/-- The normalize-to-100 operation shared by adjust_diagnosis_with_vitals,
filter_unlikely_diagnoses and enhance_ml_results: when the total is positive each
value becomes round(value / total * 100, 1); otherwise the map is unchanged. -/
def normalize100 (m : DSM) : DSM :=
  let total := sumVals m
  if 0 < total then m.map (fun p => (p.1, round1 (p.2 / total * 100))) else m

/-- Stable insertion (descending by value) used to model Python sorted(..., reverse=True). -/
def insertDesc (x : String × ℚ) : DSM → DSM
  | [] => [x]
  | y :: t => if x.2 ≤ y.2 then y :: insertDesc x t else x :: y :: t

/-- Model of Python sorted(d.items(), key=value, reverse=True): stable descending sort. -/
def sortDesc : DSM → DSM
  | [] => []
  | x :: t => insertDesc x (sortDesc t)

/-- Python max(d, key=d.get): first key of maximal value, none for the empty dict. -/
def argmaxKey : DSM → Option String
  | [] => none
  | p :: t => some ((t.foldl (fun best q => if best.2 < q.2 then q else best) p).1)

/-! ## core.py: SymptomMatcher (symptome_abgleichen) -/

structure SymptomEntry where
  id : String
  name : String
  synonyme : List String
deriving DecidableEq

/-- The per-entry match test of symptome_abgleichen: the (trimmed, lower-cased) term is
a substring of the lower-cased canonical name, OR some lower-cased synonym is a
substring of the term. -/
def matchesEntry (term : String) (e : SymptomEntry) : Bool :=
  strContains (pyLower e.name) term || e.synonyme.any (fun syn => strContains term (pyLower syn))

/-- The inner dictionary loop of symptome_abgleichen: first matching entry wins. -/
def firstMatch (term : String) : List SymptomEntry → Option SymptomEntry
  | [] => none
  | e :: rest => if matchesEntry term e then some e else firstMatch term rest

def abgleichGo (db : List SymptomEntry) : List String → List String × List String
  | [] => ([], [])
  | t :: ts =>
    let r := abgleichGo db ts
    if t = "" then r
    else
      match firstMatch t db with
      | some e => (e.id :: r.1, r.2)
      | none => (r.1, t :: r.2)

/-- core.py symptome_abgleichen: split the input on commas, strip and lower-case each
term, skip empty terms, return (matched symptom ids, unmatched terms). -/
def symptome_abgleichen (eingabe : String) (db : List SymptomEntry) :
    List String × List String :=
  abgleichGo db ((pySplit eingabe ',').map (fun s => pyLower (pyStrip s)))

/-- The cleaned term list: trimmed, lower-cased, with empty terms dropped. -/
def cleanTerms (eingabe : String) : List String :=
  ((pySplit eingabe ',').map (fun s => pyLower (pyStrip s))).filter (fun t => t ≠ "")

/-! ## core.py: VitalsParser (parse_vitals, check_vitals) -/

/-- core.py parse_vitals: split on commas, keep pairs containing a colon,
strip key and value. -/
def parse_vitals (s : String) : List (String × String) :=
  if s = "" ∨ pyStrip s = "" then []
  else
    (pySplit s ',').foldl
      (fun acc pair =>
        match splitFirst (pyStrip pair) ':' with
        | some (k, v) => dset acc (pyStrip k) (pyStrip v)
        | none => acc)
      []

def istKindAlter (alter : Option String) : Bool :=
  alter = some "Säugling" || alter = some "Kleinkind" || alter = some "Kind"

/-- core.py check_vitals: age-bracket warnings for HR, BP, T, SpO2; each non-numeric
value fails its own check silently (try/except ValueError) and yields no warning. -/
def check_vitals (vitals : List (String × String)) (alter : Option String) : List String :=
  let istKind := istKindAlter alter
  let istSaug := alter = some "Säugling"
  let wHR :=
    match dGet vitals "HR" with
    | none => []
    | some hrs =>
      match parseIntPy hrs with
      | none => []
      | some hr =>
        if istSaug then
          if 160 < hr then ["Tachykardie (HR > 160 bei Säugling)"]
          else if hr < 100 then ["Bradykardie (HR < 100 bei Säugling)"] else []
        else if istKind then
          if 140 < hr then ["Tachykardie (HR > 140 bei Kind)"]
          else if hr < 80 then ["Bradykardie (HR < 80 bei Kind)"] else []
        else
          if 120 < hr then ["Tachykardie (HR > 120)"]
          else if hr < 50 then ["Bradykardie (HR < 50)"] else []
  let wBP :=
    match dGet vitals "BP" with
    | none => []
    | some bp =>
      if strContains bp "/" then
        match (pySplit bp '/').map parseIntPy with
        | [some sys, some _] =>
          if istKind then
            if 130 < sys then ["Erhöhter Blutdruck (Systolisch > 130 bei Kind)"]
            else if sys < 80 then ["Hypotonie (Systolisch < 80 bei Kind)"] else []
          else
            if 180 < sys then ["Schwere Hypertonie (Systolisch > 180)"]
            else if sys < 90 then ["Hypotonie (Systolisch < 90)"] else []
        | _ => []
      else []
  let wT :=
    match dGet vitals "T" with
    | none => []
    | some ts =>
      match parseRatPy ts with
      | none => []
      | some t =>
        if 39.5 ≤ t then ["Hohes Fieber (T ≥ 39.5°C)"]
        else if t ≤ 35.5 then ["Hypothermie (T ≤ 35.5°C)"] else []
  let wS :=
    match dGet vitals "SpO2" with
    | none => []
    | some ss =>
      match parseIntPy ss with
      | none => []
      | some spo2 =>
        if istKind then
          if spo2 < 94 then ["Sauerstoffsättigung kritisch (SpO2 < 94% bei Kind)"] else []
        else
          if spo2 < 92 then ["Sauerstoffsättigung kritisch (SpO2 < 92%)"] else []
  wHR ++ wBP ++ wT ++ wS

/-! ## core.py: vitals-based multiplicative adjustment -/

/-- One conditional multiplicative boost capped at 100, applied only when the
condition holds and the diagnosis is present. -/
def boostIf (c : Bool) (key : String) (factor : ℚ) (d : DSM) : DSM :=
  if c && (dGet d key).isSome then dset d key (min 100 (dGetD d key 0 * factor)) else d

/-- core.py adjust_diagnosis_with_vitals: temperature, SpO2 and heart-rate based
multiplicative boosts (each parse failure skips its own block), then renormalize. -/
def adjust_diagnosis_with_vitals (diagnosen : DSM) (vitals : List (String × String))
    (alter : Option String) : DSM :=
  if vitals = [] then diagnosen
  else
    let istKind := istKindAlter alter
    let d1 :=
      match dGet vitals "T" with
      | none => diagnosen
      | some ts =>
        match parseRatPy ts with
        | none => diagnosen
        | some t =>
          let d := boostIf (decide (38.5 ≤ t)) "Lungenentzündung" 1.2 diagnosen
          let d := boostIf (decide (39.0 ≤ t)) "Virusgrippe" 1.2 d
          if istKind then
            let d := boostIf (decide (38.5 ≤ t)) "Bronchiolitis" 1.3 d
            let d := boostIf (decide (39.0 ≤ t)) "Pseudokrupp" 1.2 d
            let d := boostIf (decide (39.0 ≤ t)) "Otitis media" 1.3 d
            boostIf (decide (39.5 ≤ t)) "Meningitis" 1.4 d
          else d
    let d2 :=
      match dGet vitals "SpO2" with
      | none => d1
      | some ss =>
        match parseIntPy ss with
        | none => d1
        | some spo2 =>
          let d := boostIf (decide (spo2 < 92)) "Pulmonalembolie" 1.3 d1
          let d := boostIf (decide (spo2 < 90)) "Lungenentzündung" 1.2 d
          if istKind then
            let d := boostIf (decide (spo2 < 94)) "Bronchiolitis" 1.4 d
            let d := boostIf (decide (spo2 < 93)) "RSV-Bronchiolitis" 1.4 d
            boostIf (decide (spo2 < 92)) "Pneumonie bei Kindern" 1.5 d
          else d
    let d3 :=
      match dGet vitals "HR" with
      | none => d2
      | some hs =>
        match parseIntPy hs with
        | none => d2
        | some hr =>
          let d := boostIf (decide (110 < hr)) "Akuter Herzinfarkt" 1.3 d2
          let d := boostIf (decide (120 < hr)) "Lungenembolie" 1.4 d
          if istKind then
            let d := boostIf (decide (120 < hr)) "Pseudokrupp" 1.2 d
            let d := boostIf (decide (130 < hr)) "RSV-Bronchiolitis" 1.3 d
            boostIf (decide (140 < hr)) "Meningitis" 1.5 d
          else d
    normalize100 d3

/-! ## core.py: RuleEngine (apply_medical_rules) -/

/-- Exceptions that can escape a modelled Python function. -/
inductive PyErr where
  | valueError
  | indexError
deriving DecidableEq

def leitsymptome : List (String × List String) :=
  [("brustschmerzen", ["Akuter Herzinfarkt", "Angina pectoris", "Lungenembolie"]),
   ("atemnot", ["Akuter Herzinfarkt", "Lungenembolie", "Asthma-Anfall", "Pneumonie"]),
   ("starke kopfschmerzen", ["Meningitis", "Schlaganfall", "Subarachnoidalblutung"]),
   ("lähmungserscheinungen", ["Schlaganfall", "Multiple Sklerose"]),
   ("sprachstörungen", ["Schlaganfall", "Transitorische ischämische Attacke"]),
   ("bewusstlosigkeit", ["Synkope", "Epilepsie", "Hypoglykämie"])]

/-- The leading-symptom pass: for every term containing a leading-symptom phrase,
add 35.0 to each associated diagnosis (accumulating additively). -/
def leitPass (symptomList : List String) : DSM :=
  symptomList.foldl
    (fun z term =>
      leitsymptome.foldl
        (fun z2 p =>
          if strContains term p.1 then
            p.2.foldl (fun z3 dg => dset z3 dg (dGetD z3 dg 0 + 35.0)) z2
          else z2)
        z)
    []

/-- Parse a labelled comma-separated section of key:value items, keys and values
stripped and lower-cased (used for Untersuchungsergebnisse and Laborwerte). -/
def parseKVSection (zusatz label : String) : List (String × String) :=
  if strContains (pyLower zusatz) label then
    match sectionAfter zusatz label with
    | none => []
    | some body =>
      (pySplit body ',').foldl
        (fun acc item =>
          match splitFirst item ':' with
          | some (k, v) => dset acc (pyLower (pyStrip k)) (pyLower (pyStrip v))
          | none => acc)
        []
  else []

/-- Parse the Vorerkrankungen section: comma-separated items, stripped and lower-cased. -/
def parseVorerkrankungen (zusatz : String) : List String :=
  if strContains (pyLower zusatz) "vorerkrankungen:" then
    match sectionAfter zusatz "vorerkrankungen:" with
    | none => []
    | some body => (pySplit body ',').map (fun v => pyLower (pyStrip v))
  else []

def pediatricRules (z : DSM) (joined : String) (symptomeLower : String)
    (alter : Option String) (unters : List (String × String)) : DSM :=
  let z :=
    if strContains joined "husten" &&
        (["bellend", "heiser", "heiserkeit"].any (fun t => strContains symptomeLower t)) then
      dset z "Pseudokrupp" 80.0
    else z
  let z :=
    if strContains joined "husten" && strContains joined "fieber" && alter = some "Säugling" then
      dset (dset (dset z "RSV-Bronchiolitis" 75.0) "Virale Atemwegsinfektion" 65.0) "Bronchiolitis" 70.0
    else z
  let z :=
    if strContains joined "fieber" &&
        (["atemnot", "kurzatmig", "atembeschwerden"].any (fun t => strContains symptomeLower t)) then
      if alter = some "Säugling" then
        dset (dset z "Bronchiolitis" 80.0) "RSV-Bronchiolitis" 75.0
      else
        dset (dset z "Bronchitis" 65.0) "Pneumonie bei Kindern" 60.0
    else z
  let z :=
    if strContains joined "fieber" && strContains joined "ohrenschmerzen" then
      dset z "Akute Otitis media" 80.0
    else z
  match dGet unters "hno" with
  | none => z
  | some befund =>
    if strContains befund "trommelfell gerötet" || strContains befund "trommelfell vorgewölbt" then
      dset z "Akute Otitis media" 85.0
    else z

/-- The adult branch of apply_medical_rules.  The chest-pain + dyspnea rule reads
int(vitals[HR]) without a try/except, so a malformed HR raises ValueError here. -/
def adultRules (z : DSM) (joined : String) (unters : List (String × String))
    (vitals : List (String × String)) : Except PyErr DSM := do
  let z ←
    if strContains joined "brustschmerzen" && strContains joined "kurzatmigkeit" then do
      let z ←
        match (if vitals = [] then none else dGet vitals "HR") with
        | some hrs =>
          match parseIntPy hrs with
          | none => Except.error PyErr.valueError
          | some hr =>
            if 100 < hr then
              pure (dset (dset z "Akuter Herzinfarkt" 70.0) "Akutes Koronarsyndrom" 65.0)
            else pure (dset z "Angina pectoris" 60.0)
        | none => pure (dset z "Angina pectoris" 60.0)
      match dGet unters "cor" with
      | none => pure z
      | some befund =>
        let z :=
          if strContains befund "herzgeräusch" || strContains befund "systolikum" then
            dset z "Herzklappenfehler" 55.0
          else z
        if strContains befund "tachykardie" then pure (dset z "Akuter Herzinfarkt" 75.0)
        else pure z
    else pure z
  let z :=
    if strContains joined "kopfschmerzen" && strContains joined "lichtempfindlichkeit" then
      dset z "Migräne" 75.0
    else z
  if strContains joined "husten" && strContains joined "fieber" && strContains joined "auswurf" then
    let z := dset (dset z "Bronchitis" 70.0) "Pneumonie" 65.0
    match dGet unters "pulmo" with
    | none => pure z
    | some befund =>
      if strContains befund "rasselgeräusche" || strContains befund "bronchial" then
        pure (dset z "Pneumonie" 80.0)
      else pure z
  else pure z

def vorerkrankungenRules (z : DSM) (joined : String) (vor : List String) : DSM :=
  if vor = [] then z
  else
    let z :=
      if vor.any (fun v => v = "asthma" || v = "asthma bronchiale") then
        if strContains joined "husten" || strContains joined "atemnot" then
          dset z "Asthma-Exazerbation" 70.0
        else z
      else z
    let z :=
      if vor.any (fun v => v = "copd" || v = "chronisch obstruktive lungenerkrankung") then
        if strContains joined "husten" || strContains joined "atemnot" then
          dset z "COPD-Exazerbation" 75.0
        else z
      else z
    if vor.any (fun v => v = "diabetes" || v = "diabetes mellitus") then
      if strContains joined "durst" || strContains joined "polyurie" then
        dset z "Entgleister Diabetes" 65.0
      else z
    else z

/-- The lab-value rules; the CRP rule indexes value.split()[0], raising IndexError
on an all-whitespace value, and catches only ValueError from float(). -/
def laborRules (z : DSM) (joined : String) (labor : List (String × String)) :
    Except PyErr DSM := do
  if labor = [] then pure z
  else
    let z ←
      match dGet labor "crp" with
      | none => pure z
      | some v =>
        match pySplitWs v with
        | [] => Except.error PyErr.indexError
        | w :: _ =>
          match parseRatPy w with
          | none => pure z
          | some crp =>
            if 100 < crp then
              if strContains joined "fieber" then
                let z := dset z "Bakterielle Infektion" 80.0
                let z := if strContains joined "husten" then dset z "Pneumonie" 85.0 else z
                if strContains joined "dysurie" || strContains joined "pollakisurie" then
                  pure (dset z "Pyelonephritis" 85.0)
                else pure z
              else pure z
            else pure z
    match dGet labor "leukozyten" with
    | none => pure z
    | some v =>
      match parseRatPy (match pySplit v '/' with | [] => "" | w :: _ => w) with
      | none => pure z
      | some leuko =>
        if 12 < leuko then
          pure (dset z "Bakterielle Infektion" (max 65.0 (dGetD z "Bakterielle Infektion" 0)))
        else if leuko < 4 then pure (dset z "Virale Infektion" 60.0)
        else pure z

def konstellationRules (z : DSM) (joined : String) : DSM :=
  let z :=
    if strContains joined "brustschmerzen" && strContains joined "ausstrahlung" &&
        strContains joined "arm" then
      dset z "Akuter Herzinfarkt" (max 90.0 (dGetD z "Akuter Herzinfarkt" 0))
    else z
  let z :=
    if strContains joined "fieber" && strContains joined "nackensteifigkeit" &&
        strContains joined "kopfschmerzen" then
      dset z "Meningitis" (max 90.0 (dGetD z "Meningitis" 0))
    else z
  let z :=
    if (strContains joined "lähmung" || strContains joined "schwäche einseitig") &&
        strContains joined "sprachstörung" then
      dset z "Schlaganfall" (max 85.0 (dGetD z "Schlaganfall" 0))
    else z
  if strContains joined "bauchschmerzen" && strContains joined "erbrechen" &&
      strContains joined "rechtsseitig" then
    dset z "Appendizitis" (max 80.0 (dGetD z "Appendizitis" 0))
  else z

/-- core.py apply_medical_rules: leading-symptom pass, context parsing, the
age-branch rules, comorbidity rules, lab-threshold rules and constellation floors.
The result is the RuleEngine contribution map; PyErr models an escaping exception. -/
def apply_medical_rules (symptome : String) (vitals : List (String × String))
    (alter : Option String) (zusatzinfos : String) : Except PyErr DSM := do
  let symptomList := (pySplit symptome ',').map (fun s => pyLower (pyStrip s))
  let joined := String.intercalate " " symptomList
  let z := leitPass symptomList
  let vor := parseVorerkrankungen zusatzinfos
  let unters := parseKVSection zusatzinfos "untersuchungsergebnisse:"
  let labor := parseKVSection zusatzinfos "laborwerte:"
  let istKind :=
    istKindAlter alter ||
      (["säugling", "kind", "kindlich", "bellend"].any (fun t => strContains (pyLower symptome) t))
  let z ←
    if istKind then pure (pediatricRules z joined (pyLower symptome) alter unters)
    else adultRules z joined unters vitals
  let z := vorerkrankungenRules z joined vor
  let z ← laborRules z joined labor
  pure (konstellationRules z joined)

/-! ## core.py: filter_unlikely_diagnoses -/

def adultOnlyDiagnoses : List String :=
  ["Angina pectoris", "Myokardinfarkt", "Akuter Herzinfarkt", "Kardiomyopathie",
   "Klimakterisches Syndrom", "Psoriasis", "Herzinsuffizienz", "Fazialisparese",
   "COPD", "Tiefe Beinvenenthrombose", "Lungenembolie", "Koronare Herzkrankheit"]

def childOnlyDiagnoses : List String :=
  ["RSV-Bronchiolitis", "Pseudokrupp", "Bronchiolitis", "Epiglottitis",
   "Säuglingshusten", "Dreimonatskoliken", "Windeldermatitis"]

def redFlags : List (String × List String) :=
  [("plötzliche stärkste kopfschmerzen", ["Subarachnoidalblutung", "Meningitis"]),
   ("akuter vernichtungsschmerz", ["Aortendissektion", "Akuter Herzinfarkt"]),
   ("atemstillstand", ["Respiratorische Insuffizienz", "Kardiopulmonale Reanimation"]),
   ("bewusstlosigkeit plötzlich", ["Synkope", "Status epilepticus", "Hirnblutung"])]

set_option maxHeartbeats 2000000 in
/-- core.py filter_unlikely_diagnoses; in the pipeline it is called without vitals.
Note that the symptom terms here are lower-cased but NOT stripped (the source uses
symptome.lower().split(",") with no strip). -/
def filter_unlikely_diagnoses (diagnosen : DSM) (symptome : String)
    (alter : Option String) (vitals : Option String) : DSM :=
  let symptomList := pySplit (pyLower symptome) ','
  let joined := String.intercalate " " symptomList
  let vitalsDict : List (String × String) :=
    match vitals with
    | none => []
    | some vs =>
      (pySplit vs ',').foldl
        (fun acc pair =>
          match splitFirst pair ':' with
          | some (k, v) => dset acc (pyStrip k) (pyStrip v)
          | none => acc)
        []
  let istKind :=
    istKindAlter alter ||
      (["säugling", "kind", "kindlich"].any (fun t => strContains (pyLower symptome) t))
  let d :=
    if istKind then
      diagnosen.map (fun p => if p.1 ∈ adultOnlyDiagnoses then (p.1, p.2 * 0.01) else p)
    else
      diagnosen.map (fun p => if p.1 ∈ childOnlyDiagnoses then (p.1, p.2 * 0.01) else p)
  let d :=
    if strContains joined "brustschmerzen" &&
        (strContains joined "atemnot" || strContains joined "kurzatmigkeit") then
      d.map (fun p =>
        if p.1 = "Akuter Herzinfarkt" || p.1 = "Myokardinfarkt" then (p.1, p.2 * 2.5) else p)
    else d
  let d :=
    if (strContains joined "lähmung" || strContains joined "schwäche") &&
        (strContains joined "sprachstörung" || strContains joined "sprachverlust") then
      d.map (fun p => if p.1 = "Schlaganfall" then (p.1, p.2 * 3.0) else p)
    else d
  let d :=
    symptomList.foldl
      (fun d1 term =>
        redFlags.foldl
          (fun d2 rf =>
            if strContains term rf.1 then
              d2.map (fun p => if p.1 ∈ rf.2 then (p.1, p.2 * 5.0) else p)
            else d2)
          d1)
      d
  let d :=
    if vitalsDict = [] then d
    else
      match dGet vitalsDict "T", dGet vitalsDict "HR" with
      | some ts, some hs =>
        match parseRatPy ts, parseIntPy hs with
        | some t, some hr =>
          let d :=
            if 38.5 < t ∧ hr < 100 then
              d.map (fun p =>
                if p.1 = "Akuter Herzinfarkt" || p.1 = "Myokardinfarkt" then (p.1, p.2 * 0.1) else p)
            else d
          if 38.5 < t ∧ 100 < hr ∧
              (alter = some "Kind" ∨ alter = some "Kleinkind" ∨ alter = some "Säugling") then
            d.map (fun p =>
              if ["Pneumonie", "Bronchiolitis", "Virale Infektion", "Bronchitis"].any
                  (fun inf => strContains p.1 inf) then
                (p.1, p.2 * 2.0)
              else p)
          else d
        | _, _ => d
      | _, _ => d
  let d :=
    if strContains joined "dysurie" || strContains joined "brennen beim wasserlassen" then
      d.map (fun p =>
        if p.1 ∈ ["Harnwegsinfektion", "Zystitis", "Pyelonephritis"] then (p.1, p.2 * 3.0)
        else if strContains (pyLower p.1) "kardial" || strContains (pyLower p.1) "herz" ||
            strContains (pyLower p.1) "infarkt" then
          (p.1, p.2 * 0.02)
        else p)
    else d
  let d := (d.filter (fun p => 1 < p.2)).map (fun p => (p.1, max p.2 1))
  let d := normalize100 d
  d.filter (fun p => 2 < p.2)

/-! ## core.py: treatment and billing lookup tables -/

def behandlungenTable : List (String × String) :=
  [("Akuter Herzinfarkt", "Sofortige Notfallbehandlung: Aspirin, Nitroglycerin, ggf. Katheterlabor"),
   ("Lungenentzündung", "Antibiotika, Sauerstoff bei Bedarf, ausreichend Flüssigkeit"),
   ("Virusgrippe", "Ruhe, ausreichend Flüssigkeit, Fiebersenkung, symptomatische Therapie"),
   ("Bronchitis", "Bronchodilatatoren, Hustenlöser, evtl. Antibiotika bei bakterieller Infektion"),
   ("Pulmonalembolie", "Sofortige Hospitalisierung, Antikoagulantien, Sauerstofftherapie"),
   ("Perikarditis", "Entzündungshemmende Medikamente, Ruhe, kardiologische Kontrolle"),
   ("Appendizitis", "Chirurgische Konsiliaruntersuchung, ggf. Appendektomie"),
   ("Migräne", "Triptane, ruhige Umgebung, ausreichend Flüssigkeit, Ruhe"),
   ("RSV-Bronchiolitis", "Symptomatische Therapie, Atemunterstützung, Flüssigkeitszufuhr, Überwachung"),
   ("Pseudokrupp", "Corticosteroide, kühle feuchte Luft, Rachensprays, ggf. Adrenalin-Inhalation"),
   ("Bronchiolitis", "Symptomatische Therapie, Atemunterstützung, Flüssigkeitszufuhr"),
   ("Epiglottitis", "NOTFALL - Sofortige Krankenhauseinweisung, Intubationsbereitschaft, Antibiotika"),
   ("Akute Otitis media", "Analgetika, ggf. Antibiotika, Abschwellende Nasentropfen"),
   ("Gastroenteritis bei Kindern", "Flüssigkeitsersatz, Elektrolytlösung, leichte Kost"),
   ("Virale Atemwegsinfektion", "Symptomatische Therapie, Flüssigkeitszufuhr, Fiebersenkung"),
   ("Meningitis", "NOTFALL - Sofortige Krankenhauseinweisung, Antibiotika, Überwachung"),
   ("Masern", "Symptomatische Therapie, Isolation, Vitamin A, Flüssigkeitszufuhr"),
   ("Asthma-Exazerbation", "Inhalative Beta-2-Mimetika, systemische Steroide, Sauerstoff bei Bedarf"),
   ("COPD-Exazerbation", "Bronchodilatatoren, systemische Steroide, Antibiotika bei Infektion"),
   ("Entgleister Diabetes", "Flüssigkeits- und Elektrolyt-Ausgleich, Insulin, Ursachensuche"),
   ("Bakterielle Infektion", "Breitspektrum-Antibiotika nach Abnahme von Kulturen"),
   ("Pyelonephritis", "Antibiotika, ausreichend Flüssigkeit, Fiebersenkung"),
   ("Harnwegsinfektion", "Antibiotika, reichlich Flüssigkeit, evtl. Schmerzmittel"),
   ("Hyperthyreose", "Thyreostatika, Beta-Blocker bei Tachykardie, endokrinologische Kontrolle"),
   ("Depression", "Psychotherapie, ggf. Antidepressiva nach fachärztlicher Beurteilung")]

def abrechnungscodesTable : List (String × String) :=
  [("Akuter Herzinfarkt", "I21.9"), ("Lungenentzündung", "J18.9"), ("Virusgrippe", "J10.8"),
   ("Bronchitis", "J40"), ("Pulmonalembolie", "I26.9"), ("Perikarditis", "I30.9"),
   ("Appendizitis", "K35.80"), ("Migräne", "G43.9"), ("RSV-Bronchiolitis", "J21.0"),
   ("Pseudokrupp", "J05.0"), ("Bronchiolitis", "J21.9"), ("Epiglottitis", "J05.1"),
   ("Akute Otitis media", "H66.9"), ("Gastroenteritis bei Kindern", "A09"),
   ("Virale Atemwegsinfektion", "J06.9"), ("Meningitis", "G03.9"), ("Masern", "B05.9"),
   ("Asthma-Exazerbation", "J45.901"), ("COPD-Exazerbation", "J44.1"),
   ("Entgleister Diabetes", "E10.9"), ("Bakterielle Infektion", "A49.9"),
   ("Pyelonephritis", "N10"), ("Harnwegsinfektion", "N39.0"), ("Hyperthyreose", "E05.9"),
   ("Depression", "F32.9")]

/-- core.py behandlung_vorschlagen: pick the first key of maximal value (None for an
empty map) and look up its treatment, defaulting to the generic advice. -/
def behandlung_vorschlagen (diagnosen : DSM) : String × Option String :=
  let top := argmaxKey diagnosen
  (match top with
   | some t => dGetD behandlungenTable t "Facharzt konsultieren"
   | none => "Facharzt konsultieren",
   top)

/-- core.py abrechnungscode_erzeugen with its Unbekannt default. -/
def abrechnungscode_erzeugen (diagnose : Option String) : String :=
  match diagnose with
  | some t => dGetD abrechnungscodesTable t "Unbekannt"
  | none => "Unbekannt"

/-! ## core.py: ClassifierScorer and the fusion in patient_verarbeiten -/

/-- core.py diagnostizieren: none models the Fehler result for an empty id list;
otherwise probabilities from the (parameterised) classifier are converted to
percentage points rounded to one decimal, zero-probability classes omitted. -/
def diagnostizieren (ids : List String) (db : List SymptomEntry)
    (model : List String → List (String × ℚ)) : Option DSM :=
  match ids with
  | [] => none
  | _ =>
    let namen := ids.map (fun sid => ((db.find? (fun e => e.id = sid)).map (fun e => e.name)).getD "")
    some ((model namen).filterMap
      (fun p => if 0 < p.2 then some (p.1, round1 (p.2 * 100)) else none))

/-- The merge loop of patient_verarbeiten (core.py lines 670-675): each rule
contribution is combined with the running map by max when the diagnosis is already
present, and inserted otherwise. -/
def merge_zusatz (diagnosen zusatz : DSM) : DSM :=
  zusatz.foldl
    (fun acc p =>
      match dGet acc p.1 with
      | some b => dset acc p.1 (max b p.2)
      | none => dset acc p.1 p.2)
    diagnosen

/-- The result record of patient_verarbeiten (success case). -/
structure PVRecord where
  diagnosen : DSM
  behandlung : String
  abrechnungscode : String
  nicht_erkannt : Option (List String)
  vitals : List (String × String)
  vital_warnings : List String
  top_diagnose : Option String
  alter : Option String
deriving DecidableEq

/-- The dict returned by patient_verarbeiten: either the structured Fehler dict or
the full result record. -/
inductive PVOut where
  | fehler (msg : String) (nicht_erkannt : List String)
  | ok (r : PVRecord)
deriving DecidableEq

/-- core.py patient_verarbeiten: match, score, rules (merged with max), vitals
adjustment, implausibility filter (called without vitals), top-8 truncation,
treatment and billing lookup.  PyErr models an exception escaping the call. -/
def patient_verarbeiten (db : List SymptomEntry) (model : List String → List (String × ℚ))
    (eingabe vitals_string : String) (alter : Option String) (zusatz_info : String) :
    Except PyErr PVOut :=
  let m := symptome_abgleichen eingabe db
  match diagnostizieren m.1 db model with
  | none => Except.ok (PVOut.fehler "Keine gültigen Symptome erkannt" m.2)
  | some diagnosen0 =>
    let vitals := parse_vitals vitals_string
    let warnings := check_vitals vitals alter
    match apply_medical_rules eingabe vitals alter zusatz_info with
    | Except.error e => Except.error e
    | Except.ok zusatz =>
      let d1 := merge_zusatz diagnosen0 zusatz
      let d2 := adjust_diagnosis_with_vitals d1 vitals alter
      let d3 := filter_unlikely_diagnoses d2 eingabe alter none
      let d4 := (sortDesc d3).take 8
      let bt := behandlung_vorschlagen d4
      Except.ok (PVOut.ok
        { diagnosen := d4
          behandlung := bt.1
          abrechnungscode := abrechnungscode_erzeugen bt.2
          nicht_erkannt := if m.2 = [] then none else some m.2
          vitals := vitals
          vital_warnings := warnings
          top_diagnose := bt.2
          alter := alter })

/-! ## hybrid_model.py: LLM result, MIMIC cases, fuzzy diagnosis matching -/

/-- The parsed narrative-advisor (LLM) result; an empty record models every failure
mode (no provider, transport error, parse error, error dict). -/
structure LlmData where
  diagnosen : List (String × ℚ)
  behandlung : String
  abrechnungscode : String
deriving DecidableEq

def emptyLlm : LlmData := { diagnosen := [], behandlung := "", abrechnungscode := "" }

/-- A similar case returned by MIMICIntegration.get_similar_cases; only the fields
read by enhance_ml_results are modelled. -/
structure MimicCase where
  similarity : ℚ
  diagnoses : List String
deriving DecidableEq

/-- The word-overlap score of find_matching_diagnosis: distinct common words over the
maximum raw token count, plus 0.2 when either string contains the other. -/
def wordScore (target dxLower : String) : ℚ :=
  let tw := pySplitWs target
  let dw := pySplitWs dxLower
  let inter := ((tw.dedup).filter (fun w => w ∈ dw)).length
  let base := (inter : ℚ) / (max tw.length dw.length : ℚ)
  if strContains dxLower target || strContains target dxLower then base + 0.2 else base

def fmLoop (target : String) : List (String × ℚ) → Option String × ℚ → Option String × ℚ
  | [], acc => acc
  | p :: t, acc =>
    let sc := wordScore target (pyLower p.1)
    if acc.2 < sc then fmLoop target t (some p.1, sc) else fmLoop target t acc

/-- hybrid_model.py find_matching_diagnosis: exact case-insensitive match first,
then the best word-overlap score (first key wins ties), accepted above 0.25. -/
def find_matching_diagnosis (target0 : String) (d : DSM) : Option String :=
  let target := pyLower target0
  match d.find? (fun p => pyLower p.1 = target) with
  | some p => some p.1
  | none =>
    let best := fmLoop target d (none, 0)
    if 0.25 < best.2 then best.1 else none

/-! ## hybrid_model.py: enhance_ml_results -/

inductive Konf where
  | hoch
  | mittel
  | niedrig
deriving DecidableEq

/-- The FINALIZE steps of enhance_ml_results (lines 713-725): renormalize to 100,
keep entries of at least 2.0, sort descending (stably). -/
def finalizeMap (d : DSM) : DSM := sortDesc ((normalize100 d).filter (fun p => 2.0 ≤ p.2))

/-- The confidence-tier block of enhance_ml_results (lines 727-742): none for an
empty map; hoch when the top score exceeds 40 and either no runner-up exists or the
lead over the runner-up exceeds 15; mittel otherwise. -/
def konfidenzOf (d : DSM) : Option Konf :=
  match sortDesc d with
  | [] => none
  | (_, v) :: rest =>
    match rest with
    | [] => if 40 < v then some Konf.hoch else some Konf.mittel
    | (_, w) :: _ =>
      if 40 < v ∧ 15 < v - w then some Konf.hoch else some Konf.mittel

/-- The result of enhance_ml_results: the mutated copy of the ML result dict plus
the diagnose_konfidenz key (none when never assigned, as on the short-circuit paths). -/
structure EnhResult where
  diagnosen : DSM
  top_diagnose : Option String
  behandlung : String
  abrechnungscode : String
  nicht_erkannt : Option (List String)
  vitals : List (String × String)
  vital_warnings : List String
  alter : Option String
  konfidenz : Option Konf
deriving DecidableEq

/-- The LLM-integration loop: fuzzy-matched diagnoses are blended with a
confidence-dependent weight, novel ones inserted at min(p * 0.7, 40). -/
def llmMerge : DSM → List (String × ℚ) → DSM
  | d, [] => d
  | d, p :: t =>
    let d1 :=
      if 0 < p.2 then
        match find_matching_diagnosis p.1 d with
        | some mk =>
          let orig := dGetD d mk 0
          let w := 0.4 + 0.3 * (p.2 / 100)
          dset d mk (orig * (1 - w) + p.2 * w)
        | none => dset d p.1 (min (p.2 * 0.7) 40.0)
      else d
    llmMerge d1 t

/-- Similarity-weighted diagnosis counts over the MIMIC cases. -/
def mimicWeights (cases : List MimicCase) : List (String × ℚ) :=
  cases.foldl
    (fun acc c => c.diagnoses.foldl (fun a dg => dset a dg (dGetD a dg 0 + c.similarity)) acc)
    []

/-- The MIMIC-integration loop over the top-3 weighted diagnoses. -/
def mimicMerge : DSM → List (String × ℚ) → DSM
  | d, [] => d
  | d, p :: t =>
    let d1 :=
      match find_matching_diagnosis p.1 d with
      | some mk =>
        let boost := if 0.5 < p.2 then 1 + p.2 * 2.0 else 1 + p.2 * 1.5
        dset d mk (dGetD d mk 0 * boost)
      | none => if 1.5 < p.2 then dset d p.1 (min (p.2 * 10) 25.0) else d
    mimicMerge d1 t

def criticalPatterns : List (List String × String × ℚ) :=
  [(["brustschmerzen", "schwitzen", "übelkeit"], ("Akuter Herzinfarkt", 3.0)),
   (["fieber", "husten", "atemnot"], ("Pneumonie", 2.5)),
   (["kopfschmerzen", "fieber", "erbrechen"], ("Meningitis", 2.7)),
   (["bauchschmerzen", "erbrechen", "appetitlosigkeit"], ("Appendizitis", 2.2)),
   (["dyspnoe", "husten", "orthopnoe"], ("Herzinsuffizienz", 2.3))]

def critFold (text : String) (acc : DSM × Option String) (pat : List String × String × ℚ) :
    DSM × Option String :=
  if pat.1.all (fun s => strContains text s) then
    match dGet acc.1 pat.2.1 with
    | some v =>
      let v1 := v * pat.2.2
      (dset acc.1 pat.2.1 v1, if 50 < v1 then some pat.2.1 else acc.2)
    | none => acc
  else acc

def allergyCond (text : String) : Bool :=
  (strContains text "ausschlag" || strContains text "quaddel" || strContains text "urtik" ||
    strContains text "juck") &&
  ((["garnele", "nuss", "fisch", "milch", "ei", "verzehr", "lebensmittel"].any
      (fun f => strContains text f)) ||
    strContains text "dyspnoe")

def utiCond (text : String) : Bool :=
  (["dysurie", "brennen beim wasserlassen", "pollakisurie"].any (fun t => strContains text t)) &&
  !(strContains text "brustschmerz") && !(strContains text "atemnot")

def strokeCond (text : String) : Bool :=
  (strContains text "lähmung" || strContains text "halbseitige schwäche") &&
  (strContains text "sprachstörung" || strContains text "aphasie")

/-- The allergy short-circuit result of enhance_ml_results (severity-dependent
hand-specified distribution); no diagnose_konfidenz key is assigned. -/
def allergyResult (ml : PVRecord) (schwer : Bool) : EnhResult :=
  if schwer then
    { diagnosen := [("Anaphylaktische Reaktion", 45.0), ("Nahrungsmittelallergie", 35.0),
        ("Urtikaria", 15.0), ("Angioödem", 5.0)]
      top_diagnose := some "Anaphylaktische Reaktion"
      behandlung := "NOTFALL: Sofortige Gabe von Adrenalin, Antihistaminika, Glucocorticoide. Überwachung der Vitalparameter. Ggf. Einweisung in Notaufnahme. Nach Stabilisierung Allergenvermeidung und Patientenschulung."
      abrechnungscode := "T78.2"
      nicht_erkannt := ml.nicht_erkannt
      vitals := ml.vitals
      vital_warnings := ml.vital_warnings
      alter := ml.alter
      konfidenz := none }
  else
    { diagnosen := [("Urtikaria", 40.0), ("Nahrungsmittelallergie", 35.0),
        ("Allergische Reaktion", 20.0), ("Angioödem", 5.0)]
      top_diagnose := some "Urtikaria"
      behandlung := "Antihistaminika (z.B. Cetirizin), ggf. kurzfristig Glucocorticoide. Identifikation und Vermeidung des auslösenden Allergens. Bei wiederholten Reaktionen allergologische Abklärung."
      abrechnungscode := "L50.0"
      nicht_erkannt := ml.nicht_erkannt
      vitals := ml.vitals
      vital_warnings := ml.vital_warnings
      alter := ml.alter
      konfidenz := none }

/-- The urinary-tract-infection short-circuit result of enhance_ml_results. -/
def utiResult (ml : PVRecord) (komplex : Bool) : EnhResult :=
  if komplex then
    { diagnosen := [("Pyelonephritis", 60.0), ("Harnwegsinfektion", 25.0), ("Zystitis", 15.0)]
      top_diagnose := some "Pyelonephritis"
      behandlung := "Antibiotika (z.B. Ciprofloxacin, Cefuroxim) für 7-14 Tage, reichlich Flüssigkeitszufuhr, Analgetika bei Bedarf. Bei schweren Fällen stationäre Aufnahme erwägen."
      abrechnungscode := "N10"
      nicht_erkannt := ml.nicht_erkannt
      vitals := ml.vitals
      vital_warnings := ml.vital_warnings
      alter := ml.alter
      konfidenz := none }
  else
    { diagnosen := [("Harnwegsinfektion", 60.0), ("Zystitis", 35.0), ("Urethritis", 5.0)]
      top_diagnose := some "Harnwegsinfektion"
      behandlung := "Antibiotika (z.B. Nitrofurantoin, Fosfomycin), reichlich Flüssigkeitszufuhr, ggf. Schmerzmittel. Bei häufiger Wiederkehr erweiterte Diagnostik."
      abrechnungscode := "N30.0"
      nicht_erkannt := ml.nicht_erkannt
      vitals := ml.vitals
      vital_warnings := ml.vital_warnings
      alter := ml.alter
      konfidenz := none }

/-- The stroke short-circuit result of enhance_ml_results: Schlaganfall raised to
max(85, 3v), every other entry damped to 30 percent. -/
def strokeResult (ml : PVRecord) (d : DSM) : EnhResult :=
  let v := dGetD d "Schlaganfall" 0
  let d1 := dset d "Schlaganfall" (max 85.0 (v * 3.0))
  let d2 := d1.map (fun p => if p.1 ≠ "Schlaganfall" then (p.1, p.2 * 0.3) else p)
  { diagnosen := d2
    top_diagnose := some "Schlaganfall"
    behandlung := "NOTFALL: Sofortiger Transport ins Krankenhaus mit Stroke Unit. Zeit ist Hirn! Bildgebung (CT/MRT), evtl. Thrombolyse oder mechanische Thrombektomie."
    abrechnungscode := "I63.9"
    nicht_erkannt := ml.nicht_erkannt
    vitals := ml.vitals
    vital_warnings := ml.vital_warnings
    alter := ml.alter
    konfidenz := none }

/-- The final block of enhance_ml_results (lines 727-751): top diagnosis,
confidence tier, and adoption of a non-empty LLM treatment and billing code, all
only when the finalized map is non-empty. -/
def finalResult (ml : PVRecord) (llm : LlmData) (d7 : DSM) (topSoFar : Option String) :
    EnhResult :=
  match sortDesc d7 with
  | [] =>
    { diagnosen := d7
      top_diagnose := topSoFar
      behandlung := ml.behandlung
      abrechnungscode := ml.abrechnungscode
      nicht_erkannt := ml.nicht_erkannt
      vitals := ml.vitals
      vital_warnings := ml.vital_warnings
      alter := ml.alter
      konfidenz := none }
  | (k, _) :: _ =>
    { diagnosen := d7
      top_diagnose := some k
      behandlung := if llm.behandlung ≠ "" then llm.behandlung else ml.behandlung
      abrechnungscode :=
        if llm.abrechnungscode ≠ "" then llm.abrechnungscode else ml.abrechnungscode
      nicht_erkannt := ml.nicht_erkannt
      vitals := ml.vitals
      vital_warnings := ml.vital_warnings
      alter := ml.alter
      konfidenz := konfidenzOf d7 }

/-- The two constellation boosts at the head of enhance_ml_results (chest pain
with radiation into the arm, and the meningitis triad), updating the map and the
running top diagnosis. -/
def enhanceBoosts (ml : PVRecord) (text : String) : DSM × Option String :=
  let d0 := ml.diagnosen
  let s1 :=
    if strContains text "brustschmerzen" && strContains text "ausstrahlung" &&
        strContains text "arm" then
      match dGet d0 "Akuter Herzinfarkt" with
      | some v => (dset d0 "Akuter Herzinfarkt" (v * 2.0), some "Akuter Herzinfarkt")
      | none => (d0, ml.top_diagnose)
    else (d0, ml.top_diagnose)
  if strContains text "fieber" && strContains text "nackensteifigkeit" &&
      strContains text "kopfschmerzen" then
    match dGet s1.1 "Meningitis" with
    | some v => (dset s1.1 "Meningitis" (v * 2.0), some "Meningitis")
    | none => s1
  else s1

/-- The generic integration chain of enhance_ml_results: LLM merge, MIMIC merge
over the top-3 weighted diagnoses, pediatric damping of adult diagnoses, and the
critical-pattern boosts. -/
def enhanceGeneric (llm : LlmData) (mimicResults : List MimicCase) (alter : Option String)
    (text : String) (s2 : DSM × Option String) : DSM × Option String :=
  let d3 := llmMerge s2.1 llm.diagnosen
  let d4 :=
    if mimicResults ≠ [] then mimicMerge d3 ((sortDesc (mimicWeights mimicResults)).take 3)
    else d3
  let d5 :=
    if istKindAlter alter then
      ["Myokardinfarkt", "Akuter Herzinfarkt", "Angina pectoris"].foldl
        (fun a dg =>
          if (dGet a dg).isSome then dset a dg (dGetD a dg 0 * 0.05) else a)
        d4
    else d4
  criticalPatterns.foldl (critFold text) (d5, s2.2)

/-- hybrid_model.py enhance_ml_results: constellation boosts, the three
short-circuit special cases (which return without assigning a confidence tier),
LLM and MIMIC integration, age gate, critical-pattern boosts, then
normalize / drop below 2.0 / sort descending and the confidence-tier block. -/
def enhance (ml : PVRecord) (llm : LlmData) (mimicResults : List MimicCase)
    (symptome vitals_string : String) (alter : Option String) (zusatz : String) : EnhResult :=
  let text := pyLower symptome ++ " " ++ pyLower zusatz
  let s2 := enhanceBoosts ml text
  if allergyCond text then
    allergyResult ml (strContains text "dyspnoe" || strContains text "atem")
  else if utiCond text then
    utiResult ml
      ((strContains text "fieber" ||
          (vitals_string ≠ "" &&
            (["T:38", "T:39", "T:40"].any (fun x => strContains vitals_string x)))) &&
        (["flanke", "rücken", "niere", "seitenschmerz"].any (fun t => strContains text t)))
  else if strokeCond text && (dGet s2.1 "Schlaganfall").isSome then
    strokeResult ml s2.1
  else
    let s6 := enhanceGeneric llm mimicResults alter text s2
    finalResult ml llm (finalizeMap s6.1) s6.2

/-! ## hybrid_model.py: diagnose (the pipeline orchestration) -/

/-- The optional enhancement stages actually invoked during a run. -/
inductive PipelineStage where
  | mimicStage
  | llmStage
deriving DecidableEq

/-- The result field of the dict returned by diagnose: either the structured
no-symptoms error dict or the enhanced result. -/
inductive DRes where
  | fehler (msg : String) (nicht_erkannt : List String)
  | enhanced (r : EnhResult)
deriving DecidableEq

structure DiagnoseReturn where
  res : DRes
  source : String
  log : List PipelineStage
deriving DecidableEq

/-- The source tag computed in diagnose: based on provider availability and the
(post-recovery) MIMIC result list, not on whether the LLM call succeeded. -/
def sourceTag (provider : Bool) (mimicResults : List MimicCase) : String :=
  if !provider && mimicResults = [] then "ml_model"
  else if !provider then "ml_mimic"
  else if mimicResults = [] then "ml_llm"
  else "hybrid"

/-- hybrid_model.py diagnose: run patient_verarbeiten (uncaught exceptions
propagate), return the error dict with source ml_model before any further stage on
a Fehler result, otherwise invoke the MIMIC lookup (any failure recovered to an
empty case list) and, when a provider is configured, the LLM call (any failure
recovered to an empty LlmData), then combine with enhance_ml_results.
The log records which optional stages were invoked. -/
def diagnose (db : List SymptomEntry) (model : List String → List (String × ℚ))
    (provider : Bool) (simFn : Except String (List MimicCase)) (llmFn : Option LlmData)
    (symptome vitals_string : String) (alter : Option String) (zusatz : String) :
    Except PyErr DiagnoseReturn :=
  match patient_verarbeiten db model symptome vitals_string alter zusatz with
  | Except.error e => Except.error e
  | Except.ok (PVOut.fehler msg un) =>
    Except.ok { res := DRes.fehler msg un, source := "ml_model", log := [] }
  | Except.ok (PVOut.ok rec) =>
    let mimicResults := match simFn with | Except.ok cs => cs | Except.error _ => []
    let llmData := if provider then llmFn.getD emptyLlm else emptyLlm
    let log := [PipelineStage.mimicStage] ++ (if provider then [PipelineStage.llmStage] else [])
    Except.ok
      { res := DRes.enhanced (enhance rec llmData mimicResults symptome vitals_string alter zusatz)
        source := sourceTag provider mimicResults
        log := log }

/-! ## Concrete data for witnesses and counterexamples, and
specification-side notions used in claim statements -/

def dbW : List SymptomEntry :=
  [⟨"s1", "Husten", []⟩, ⟨"s2", "Fieber", []⟩, ⟨"s3", "Ausschlag", []⟩,
   ⟨"s4", "Brustschmerzen", []⟩, ⟨"s5", "Kurzatmigkeit", []⟩]

def modelW (namen : List String) : List (String × ℚ) :=
  if namen = ["Husten"] then [("Lungenentzündung", 1)]
  else if namen = ["Ausschlag"] then [("Urtikaria", 1/2), ("Migräne", 1/2)]
  else [("Virusgrippe", 1)]


def recW : PVRecord :=
  { diagnosen := [("Lungenentzündung", 100)]
    behandlung := "Antibiotika, Sauerstoff bei Bedarf, ausreichend Flüssigkeit"
    abrechnungscode := "J18.9"
    nicht_erkannt := none
    vitals := []
    vital_warnings := []
    top_diagnose := some "Lungenentzündung"
    alter := some "Erwachsener" }

def mC9 : DSM :=
  [("A", 8449/100), ("B0", 1551/1000), ("B1", 1551/1000), ("B2", 1551/1000),
   ("B3", 1551/1000), ("B4", 1551/1000), ("B5", 1551/1000), ("B6", 1551/1000),
   ("B7", 1551/1000), ("B8", 1551/1000), ("B9", 1551/1000)]

def valsOf (m : DSM) : List ℚ := m.map (fun p => p.2)

def SortedD (l : DSM) : Prop := l.Pairwise (fun a b => b.2 ≤ a.2)

/-- The top score of a map: a value that occurs and bounds every value. -/
def IsTopScore (m : DSM) (v : ℚ) : Prop := v ∈ valsOf m ∧ ∀ w ∈ valsOf m, w ≤ v

/-- The runner-up: the maximal value of the map after removing one copy of the top. -/
def IsRunnerUp (m : DSM) (v w : ℚ) : Prop :=
  w ∈ (valsOf m).erase v ∧ ∀ u ∈ (valsOf m).erase v, u ≤ w

attribute [local semireducible] Rat.add Rat.mul Rat.inv Rat.sub Rat.ofScientific

/-! ## Helper lemmas: rounding -/

theorem rhe_near (q : ℚ) : |((rhe q : ℤ) : ℚ) - q| ≤ 1/2 := by
  have h1 : ((Int.floor q : ℤ) : ℚ) ≤ q := Int.floor_le q
  have h2 : q < ((Int.floor q : ℤ) : ℚ) + 1 := Int.lt_floor_add_one q
  simp only [rhe]
  split_ifs with ha hb hc <;> push_cast <;> rw [abs_le] <;>
    exact ⟨by linarith, by linarith⟩

theorem round1_near (q : ℚ) : |round1 q - q| ≤ 1/20 := by
  have h := rhe_near (10 * q)
  have he : round1 q - q = (((rhe (10 * q) : ℤ) : ℚ) - 10 * q) / 10 := by
    simp only [round1]; ring
  rw [he, abs_div]
  have h10 : |(10 : ℚ)| = 10 := by norm_num
  rw [h10]
  linarith

theorem rhe_intCast (k : ℤ) : rhe ((k : ℤ) : ℚ) = k := by
  simp only [rhe, Int.floor_intCast]
  norm_num

theorem round1_tenth (k : ℤ) : round1 (((k : ℤ) : ℚ) / 10) = ((k : ℤ) : ℚ) / 10 := by
  have h : (10 : ℚ) * (((k : ℤ) : ℚ) / 10) = ((k : ℤ) : ℚ) := by field_simp
  simp only [round1, h, rhe_intCast]

/-! ## Helper lemmas: sums and normalization -/

theorem sum_map_round1_near (l : List ℚ) :
    |(l.map round1).sum - l.sum| ≤ (l.length : ℚ) * (1/20) := by
  induction l with
  | nil => simp
  | cons x t ih =>
    have hx := round1_near x
    have h1 : |round1 x + ((t.map round1).sum) - (x + t.sum)| ≤
        |round1 x - x| + |(t.map round1).sum - t.sum| := by
      have := abs_add (round1 x - x) ((t.map round1).sum - t.sum)
      calc |round1 x + ((t.map round1).sum) - (x + t.sum)|
          = |(round1 x - x) + ((t.map round1).sum - t.sum)| := by ring_nf
        _ ≤ |round1 x - x| + |(t.map round1).sum - t.sum| := this
    simp only [List.map_cons, List.sum_cons, List.length_cons]
    push_cast
    calc |round1 x + ((t.map round1).sum) - (x + t.sum)|
        ≤ |round1 x - x| + |(t.map round1).sum - t.sum| := h1
      _ ≤ 1/20 + (t.length : ℚ) * (1/20) := add_le_add hx ih
      _ = ((t.length : ℚ) + 1) * (1/20) := by ring

theorem sumVals_eq (m : DSM) : sumVals m = (valsOf m).sum := rfl

theorem sum_map_mulc (l : List ℚ) (c : ℚ) : (l.map (fun v => v * c)).sum = l.sum * c := by
  induction l with
  | nil => simp
  | cons x t ih => simp [ih, add_mul]

theorem valsOf_normalize100 (d : DSM) (h : 0 < sumVals d) :
    valsOf (normalize100 d) = ((valsOf d).map (fun v => v / sumVals d * 100)).map round1 := by
  simp only [normalize100, if_pos h, valsOf, List.map_map]
  rfl

theorem sum_normalized_pre (d : DSM) (h : 0 < sumVals d) :
    ((valsOf d).map (fun v => v / sumVals d * 100)).sum = 100 := by
  have hne : sumVals d ≠ 0 := ne_of_gt h
  have hfun : (fun v => v / sumVals d * 100) = (fun v => v * (100 / sumVals d)) := by
    funext v; ring
  rw [hfun, sum_map_mulc, ← sumVals_eq]
  field_simp

theorem sumVals_normalize100_near (d : DSM) (h : 0 < sumVals d) :
    |sumVals (normalize100 d) - 100| ≤ (d.length : ℚ) * (1/20) := by
  have h1 := sum_map_round1_near ((valsOf d).map (fun v => v / sumVals d * 100))
  rw [sum_normalized_pre d h] at h1
  rw [sumVals_eq, valsOf_normalize100 d h]
  have hlen : (((valsOf d).map (fun v => v / sumVals d * 100)).length : ℚ) = (d.length : ℚ) := by
    simp [valsOf]
  rw [hlen] at h1
  exact h1

theorem normalize100_vals_tenth (d : DSM) (h : 0 < sumVals d) :
    ∀ p ∈ normalize100 d, ∃ k : ℤ, p.2 = ((k : ℤ) : ℚ) / 10 := by
  intro p hp
  simp only [normalize100, if_pos h, List.mem_map] at hp
  obtain ⟨q, _, rfl⟩ := hp
  exact ⟨rhe (10 * (q.2 / sumVals d * 100)), rfl⟩

/-! ## Helper lemmas: sorting -/

theorem insertDesc_perm (x : String × ℚ) (l : DSM) : (insertDesc x l).Perm (x :: l) := by
  induction l with
  | nil => simp [insertDesc]
  | cons y t ih =>
    simp only [insertDesc]
    split_ifs
    · exact ((ih.cons y).trans (List.Perm.swap x y t))
    · exact List.Perm.refl _

theorem sortDesc_perm (l : DSM) : (sortDesc l).Perm l := by
  induction l with
  | nil => simp [sortDesc]
  | cons x t ih => exact (insertDesc_perm x (sortDesc t)).trans (ih.cons x)

theorem insertDesc_sortedD (x : String × ℚ) (l : DSM) (h : SortedD l) :
    SortedD (insertDesc x l) := by
  induction l with
  | nil => simp [insertDesc, SortedD]
  | cons y t ih =>
    rw [SortedD, List.pairwise_cons] at h
    simp only [insertDesc]
    split_ifs with hle
    · rw [SortedD, List.pairwise_cons]
      refine ⟨?_, ih h.2⟩
      intro z hz
      rcases List.mem_cons.mp ((insertDesc_perm x t).mem_iff.mp hz) with hz' | hz'
      · rw [hz']; exact hle
      · exact h.1 z hz'
    · rw [SortedD, List.pairwise_cons]
      refine ⟨?_, List.pairwise_cons.mpr h⟩
      intro z hz
      rcases List.mem_cons.mp hz with hz' | hz'
      · rw [hz']; exact le_of_not_le hle
      · exact le_trans (h.1 z hz') (le_of_not_le hle)

theorem sortDesc_sortedD (l : DSM) : SortedD (sortDesc l) := by
  induction l with
  | nil => simp [sortDesc, SortedD]
  | cons x t ih => exact insertDesc_sortedD x (sortDesc t) ih

/-! ## Helper lemmas: association-list dictionaries -/

theorem dGet_dset_self {α : Type} (m : List (String × α)) (k : String) (v : α) :
    dGet (dset m k v) k = some v := by
  induction m with
  | nil => simp [dset, dGet]
  | cons p t ih =>
    simp only [dset]
    split_ifs with h
    · simp [dGet]
    · simp [dGet, h, ih]

theorem dGet_dset_ne {α : Type} (m : List (String × α)) (k d : String) (v : α)
    (hne : d ≠ k) : dGet (dset m k v) d = dGet m d := by
  have hkd : k ≠ d := Ne.symm hne
  induction m with
  | nil => simp [dset, dGet, hkd]
  | cons p t ih =>
    simp only [dset]
    split_ifs with h
    · simp [dGet, h, hkd]
    · simp [dGet, ih]

theorem dGet_none_of_not_mem_keys {α : Type} (m : List (String × α)) (k : String)
    (h : k ∉ m.map Prod.fst) : dGet m k = none := by
  induction m with
  | nil => rfl
  | cons p t ih =>
    simp only [List.map_cons, List.mem_cons] at h
    push_neg at h
    have h1 : p.1 ≠ k := Ne.symm h.1
    simp [dGet, h1, ih h.2]

/-! ## Helper lemmas: the symptom matcher loop -/

theorem firstMatch_eq_find? (t : String) (db : List SymptomEntry) :
    firstMatch t db = db.find? (fun e => matchesEntry t e) := by
  induction db with
  | nil => rfl
  | cons e rest ih =>
    simp only [firstMatch, List.find?]
    by_cases h : matchesEntry t e
    · simp [h]
    · simp only [Bool.not_eq_true] at h
      simp [h, ih]

theorem abgleichGo_spec (db : List SymptomEntry) (ts : List String) :
    abgleichGo db ts =
      ((ts.filter (fun t => t ≠ "")).filterMap (fun t => (firstMatch t db).map (fun e => e.id)),
       (ts.filter (fun t => t ≠ "")).filter (fun t => (firstMatch t db).isNone)) := by
  induction ts with
  | nil => rfl
  | cons t rest ih =>
    simp only [abgleichGo, ih]
    by_cases ht : t = ""
    · simp [ht, List.filter_cons]
    · simp only [List.filter_cons, if_pos (by simpa using ht)]
      cases hfm : firstMatch t db with
      | some e => simp [List.filterMap_cons, List.filter_cons, hfm, ht]
      | none => simp [List.filterMap_cons, List.filter_cons, hfm, ht]

/-! ## Claim C1: how RuleEngine contributions are merged into the baseline -/

theorem merge_zusatz_lookup (contrib : DSM) :
    ∀ (base : DSM), (contrib.map Prod.fst).Nodup → ∀ d,
      dGet (merge_zusatz base contrib) d =
        match dGet contrib d, dGet base d with
        | some c, some b => some (max b c)
        | some c, none => some c
        | none, o => o := by
  induction contrib with
  | nil =>
    intro base _ d
    simp only [merge_zusatz, List.foldl_nil, dGet]
  | cons p t ih =>
    intro base hnd d
    rw [List.map_cons, List.nodup_cons] at hnd
    have hstep : merge_zusatz base (p :: t) =
        merge_zusatz (match dGet base p.1 with
          | some b => dset base p.1 (max b p.2)
          | none => dset base p.1 p.2) t := by
      simp only [merge_zusatz, List.foldl_cons]
    rw [hstep, ih _ hnd.2 d]
    by_cases hd : d = p.1
    · subst hd
      have htn : dGet t p.1 = none := dGet_none_of_not_mem_keys t p.1 hnd.1
      have hhead : dGet (p :: t) p.1 = some p.2 := by simp [dGet]
      rw [htn, hhead]
      cases hb : dGet base p.1 with
      | some b =>
        simp only [hb, dGet_dset_self]
      | none =>
        simp only [hb, dGet_dset_self]
    · have hp1 : p.1 ≠ d := fun h => hd h.symm
      have hcons : dGet (p :: t) d = dGet t d := by simp [dGet, hp1]
      rw [hcons]
      have hbase : dGet (match dGet base p.1 with
          | some b => dset base p.1 (max b p.2)
          | none => dset base p.1 p.2) d = dGet base d := by
        cases hb2 : dGet base p.1 with
        | some b2 => exact dGet_dset_ne base p.1 d _ hd
        | none => exact dGet_dset_ne base p.1 d _ hd
      rw [hbase]

/-- Claim C1 (corrected): patient_verarbeiten merges every RuleEngine contribution
into the classifier baseline with max semantics, not with addition: a diagnosis
already present keeps max(existing, contribution) (so no existing value is ever
lowered), and an absent diagnosis is inserted at its contribution value; the
additive combination existing + contribution claimed by the spec is never used. -/
theorem C1_rule_merge_amended (base contrib : DSM)
    (hnd : (contrib.map Prod.fst).Nodup) :
    (∀ d, dGet (merge_zusatz base contrib) d =
      match dGet contrib d, dGet base d with
      | some c, some b => some (max b c)
      | some c, none => some c
      | none, o => o) ∧
    (∀ d b, dGet base d = some b →
      ∃ r, dGet (merge_zusatz base contrib) d = some r ∧ b ≤ r) := by
  refine ⟨merge_zusatz_lookup contrib base hnd, ?_⟩
  intro d b hb
  have h := merge_zusatz_lookup contrib base hnd d
  cases hc : dGet contrib d with
  | some c =>
    rw [hc, hb] at h
    exact ⟨max b c, h, le_max_left b c⟩
  | none =>
    rw [hc, hb] at h
    exact ⟨b, h, le_refl b⟩

/-- Claim C1 witness: the merge equation evaluated at a concrete baseline and a
concrete contribution map. -/
theorem C1_rule_merge_witness :
    dGet (merge_zusatz [("Akuter Herzinfarkt", (50 : ℚ))]
        [("Akuter Herzinfarkt", (35 : ℚ)), ("Angina pectoris", 35)]) "Akuter Herzinfarkt" =
      match dGet [("Akuter Herzinfarkt", (35 : ℚ)), ("Angina pectoris", 35)] "Akuter Herzinfarkt",
          dGet [("Akuter Herzinfarkt", (50 : ℚ))] "Akuter Herzinfarkt" with
      | some c, some b => some (max b c)
      | some c, none => some c
      | none, o => o :=
  (C1_rule_merge_amended [("Akuter Herzinfarkt", 50)]
    [("Akuter Herzinfarkt", 35), ("Angina pectoris", 35)] (by decide)).1 "Akuter Herzinfarkt"

/-- Claim C1 counterexample: for the reachable RuleEngine contribution produced by
apply_medical_rules on the single symptom Brustschmerzen, merging into a baseline
that already holds Akuter Herzinfarkt at 50 yields 50 = max(50, 35), not the
85 = 50 + 35 required by the claimed additive merge. -/
theorem C1_rule_merge_counterexample :
    apply_medical_rules "Brustschmerzen" [] none "" =
      Except.ok [("Akuter Herzinfarkt", 35.0), ("Angina pectoris", 35.0), ("Lungenembolie", 35.0)] ∧
    dGet (merge_zusatz [("Akuter Herzinfarkt", (50 : ℚ))]
        [("Akuter Herzinfarkt", 35.0), ("Angina pectoris", 35.0), ("Lungenembolie", 35.0)])
      "Akuter Herzinfarkt" = some 50 ∧
    (50 : ℚ) ≠ 50 + 35 := by
  exact ⟨by decide, by decide, by norm_num⟩

/-! ## Claim C3: the symptom matcher -/

/-- Claim C3 (corrected): the matched ids are exactly the first dictionary entries
(in dictionary order, via find?) whose per-term test succeeds, but the canonical
name direction is reversed relative to the claim: an entry matches when the TERM is
a substring of the lower-cased canonical NAME (not the name a substring of the
term), or when some lower-cased synonym is a substring of the term. -/
theorem C3_matcher_amended (eingabe : String) (db : List SymptomEntry) :
    (symptome_abgleichen eingabe db).1 =
      (cleanTerms eingabe).filterMap
        (fun t => (db.find? (fun en => matchesEntry t en)).map (fun en => en.id)) ∧
    (∀ (t : String) (en : SymptomEntry),
      matchesEntry t en = true ↔
        (strContains (pyLower en.name) t = true ∨
          ∃ syn ∈ en.synonyme, strContains t (pyLower syn) = true)) := by
  constructor
  · rw [symptome_abgleichen, abgleichGo_spec]
    simp only [cleanTerms, firstMatch_eq_find?]
  · intro t en
    simp [matchesEntry, List.any_eq_true]

/-- Claim C3 counterexample: the dictionary name Fieber IS a substring of the term
fieber hoch, so by the claim the term must match the entry; the code leaves it
unmatched because it tests the reversed direction (term inside name). -/
theorem C3_matcher_counterexample :
    strContains "fieber hoch" (pyLower "Fieber") = true ∧
    symptome_abgleichen "Fieber hoch" [⟨"s1", "Fieber", []⟩] = ([], ["fieber hoch"]) := by
  exact ⟨by decide, by decide⟩

/-! ## Claim C8: unmatched terms -/

/-- Claim C8 (corrected): the unmatched list holds exactly the non-empty terms
without a dictionary match, in input order, but each term appears trimmed AND
lower-cased rather than with its original casing preserved; matched terms never
appear in the unmatched list. -/
theorem C8_unmatched_amended (eingabe : String) (db : List SymptomEntry) :
    (symptome_abgleichen eingabe db).2 =
      (cleanTerms eingabe).filter (fun t => (firstMatch t db).isNone) ∧
    (∀ t ∈ (symptome_abgleichen eingabe db).2, firstMatch t db = none) := by
  constructor
  · rw [symptome_abgleichen, abgleichGo_spec]
    rfl
  · intro t ht
    rw [symptome_abgleichen, abgleichGo_spec] at ht
    have := (List.mem_filter.mp ht).2
    simpa [Option.isNone_iff_eq_none] using this

/-- Claim C8 counterexample: the unmatched term XYZblorp is returned as xyzblorp,
so the original casing is not preserved (trimming alone would keep XYZblorp). -/
theorem C8_unmatched_counterexample :
    symptome_abgleichen "XYZblorp, Fieber" [⟨"s1", "Fieber", []⟩] = (["s1"], ["xyzblorp"]) ∧
    pyStrip "XYZblorp" = "XYZblorp" ∧
    ("xyzblorp" : String) ≠ "XYZblorp" := by
  exact ⟨by decide, by decide, by decide⟩

/-! ## Claim C4: malformed vitals -/

/-- Claim C4 (code_bug): check_vitals drops a non-numeric HR silently as the spec
says, but the adult chest-pain rule of apply_medical_rules calls int(vitals[HR])
without a try/except, so the same malformed field raises ValueError there and the
exception escapes patient_verarbeiten instead of being recovered locally. -/
theorem C4_malformed_vitals_bug :
    check_vitals [("HR", "abc")] (some "Erwachsener") = [] ∧
    apply_medical_rules "Brustschmerzen, Kurzatmigkeit" [("HR", "abc")] (some "Erwachsener") "" =
      Except.error PyErr.valueError ∧
    patient_verarbeiten dbW modelW "Brustschmerzen, Kurzatmigkeit" "HR:abc"
        (some "Erwachsener") "" = Except.error PyErr.valueError := by
  exact ⟨by decide, by decide, by decide⟩

/-! ## Claim C5: empty symptom input terminates the pipeline early -/

/-- Claim C5 (confirmed): for symptom input whose comma-separated terms are all
blank, diagnose returns the structured no-symptoms error dict (not an exception),
the source tag is ml_model, and the invocation log is empty: neither the MIMIC
similarity lookup nor the LLM call is made, for every classifier, provider flag and
stage behaviour. -/
theorem C5_empty_input (db : List SymptomEntry) (model : List String → List (String × ℚ))
    (provider : Bool) (simFn : Except String (List MimicCase)) (llmFn : Option LlmData)
    (eingabe vs : String) (alter : Option String) (zi : String)
    (h : ∀ t ∈ pySplit eingabe ',', pyStrip t = "") :
    diagnose db model provider simFn llmFn eingabe vs alter zi =
      Except.ok { res := DRes.fehler "Keine gültigen Symptome erkannt" [],
                  source := "ml_model", log := [] } := by
  have habg : symptome_abgleichen eingabe db = ([], []) := by
    rw [symptome_abgleichen, abgleichGo_spec]
    have hfil : ((pySplit eingabe ',').map (fun s => pyLower (pyStrip s))).filter
        (fun t => t ≠ "") = [] := by
      rw [List.filter_eq_nil_iff]
      intro t ht
      obtain ⟨s, hs, rfl⟩ := List.mem_map.mp ht
      rw [h s hs]
      simp [pyLower]
    rw [hfil]
    rfl
  simp [diagnose, patient_verarbeiten, habg, diagnostizieren]

/-- Claim C5 witness: whitespace-only input, with a provider configured and a
failing similarity stage supplied. -/
theorem C5_empty_input_witness :
    diagnose dbW modelW true (Except.error "down") none "   " "" (some "Erwachsener") "" =
      Except.ok { res := DRes.fehler "Keine gültigen Symptome erkannt" [],
                  source := "ml_model", log := [] } :=
  C5_empty_input dbW modelW true (Except.error "down") none "   " "" (some "Erwachsener") ""
    (by decide)

/-! ## Claim C2: the FINALIZE normalization invariant -/

/-- Claim C2 (corrected): every entry surviving FINALIZE has value at least 2.0
(a value exactly 2.0 is kept, the drop condition being strictly below 2.0), and the
normalized map BEFORE the drop sums to within 0.05 per entry of 100.0; after
dropping sub-2.0 entries the returned sum can fall below the claimed 0.1 tolerance
by the dropped mass. -/
theorem C2_finalize_amended (d : DSM) (h : 0 < sumVals d) :
    (∀ p ∈ finalizeMap d, (2 : ℚ) ≤ p.2) ∧
    |sumVals (normalize100 d) - 100| ≤ (d.length : ℚ) * (1/20) := by
  constructor
  · intro p hp
    rw [finalizeMap] at hp
    have hp2 : p ∈ (normalize100 d).filter (fun p => 2.0 ≤ p.2) :=
      (sortDesc_perm _).mem_iff.mp hp
    have hq := (List.mem_filter.mp hp2).2
    have : (2.0 : ℚ) ≤ p.2 := of_decide_eq_true hq
    linarith
  · exact sumVals_normalize100_near d h

/-- Claim C2 witness: the FINALIZE invariants instantiated at a concrete map. -/
theorem C2_finalize_witness :
    (∀ p ∈ finalizeMap [("A", (50 : ℚ))], (2 : ℚ) ≤ p.2) ∧
    |sumVals (normalize100 [("A", (50 : ℚ))]) - 100| ≤
      (([("A", (50 : ℚ))] : DSM).length : ℚ) * (1/20) :=
  C2_finalize_amended [("A", 50)] (by decide)

/-- Claim C2 counterexample: two reachable FINALIZE runs inside enhance_ml_results.
In the first, the LLM inserts Grippe at 1.4, normalization leaves it below 2.0, the
drop removes it, and the returned map sums to 98.6 — more than 0.1 away from 100.
In the second, Grippe survives at exactly 2.0, violating the claimed strict bound. -/
theorem C2_finalize_counterexample :
    (enhance { recW with diagnosen := [("Lungenentzündung", 100)] }
        { diagnosen := [("Grippe", 2)], behandlung := "", abrechnungscode := "" } [] "husten" ""
        (some "Erwachsener") "").diagnosen = [("Lungenentzündung", 98.6)] ∧
    ¬(|sumVals [("Lungenentzündung", (98.6 : ℚ))] - 100| ≤ 0.1) ∧
    (enhance { recW with diagnosen := [("Lungenentzündung", 98)] }
        { diagnosen := [("Grippe", 2.9)], behandlung := "", abrechnungscode := "" } [] "husten" ""
        (some "Erwachsener") "").diagnosen = [("Lungenentzündung", 98.0), ("Grippe", 2.0)] ∧
    ¬((2.0 : ℚ) > 2.0) := by
  refine ⟨by decide, ?_, by decide, by norm_num⟩
  have hs : sumVals [("Lungenentzündung", (98.6 : ℚ))] = 98.6 := by
    simp [sumVals]
  rw [hs]
  intro habs
  rw [abs_le] at habs
  norm_num at habs

/-! ## Claim C9: idempotence of renormalization -/

/-- Claim C9 (corrected): renormalization is idempotent exactly on the maps whose
first normalization still sums to 100 (then a second pass is the identity, every
value being a multiple of one tenth); in general the rounded total can drift away
from 100 and a second pass then moves values, beyond the rounding tolerance. -/
theorem C9_renormalize_amended (d : DSM) (h : sumVals (normalize100 d) = 100) :
    normalize100 (normalize100 d) = normalize100 d := by
  have hpos : 0 < sumVals d := by
    by_contra hn
    push_neg at hn
    have hid : normalize100 d = d := by
      simp only [normalize100]
      rw [if_neg (not_lt.mpr hn)]
    rw [hid] at h
    rw [h] at hn
    norm_num at hn
  have hvals := normalize100_vals_tenth d hpos
  set n := normalize100 d with hdef
  have hstep : normalize100 n = n.map (fun p => (p.1, round1 (p.2 / 100 * 100))) := by
    simp only [normalize100, h]
    rw [if_pos (by norm_num : (0 : ℚ) < 100)]
  rw [hstep]
  have hid : ∀ p ∈ n, (fun p => (p.1, round1 (p.2 / 100 * 100))) p = id p := by
    intro p hp
    obtain ⟨k, hk⟩ := hvals p hp
    have hdiv : p.2 / 100 * 100 = p.2 := by field_simp
    have hr : round1 p.2 = p.2 := by rw [hk]; exact round1_tenth k
    simp only [hdiv, hr, id]
  rw [List.map_congr_left hid, List.map_id]

/-- Claim C9 witness: a second normalization leaves a map with exact total 100
unchanged. -/
theorem C9_renormalize_witness :
    normalize100 (normalize100 [("A", (50 : ℚ)), ("B", 50)]) =
      normalize100 [("A", (50 : ℚ)), ("B", 50)] :=
  C9_renormalize_amended [("A", 50), ("B", 50)] (by decide)

/-- Claim C9 counterexample: for an 11-entry map with positive total, one
normalization yields 84.5 for entry A (rounded total 100.5), and a second
normalization moves A to 84.1 — a drift of 0.4, beyond the rounding tolerance. -/
theorem C9_renormalize_counterexample :
    0 < sumVals mC9 ∧
    dGet (normalize100 mC9) "A" = some 84.5 ∧
    dGet (normalize100 (normalize100 mC9)) "A" = some 84.1 ∧
    ¬(|(84.1 : ℚ) - 84.5| ≤ 0.1) := by
  refine ⟨by decide, by decide, by decide, ?_⟩
  intro habs
  rw [abs_le] at habs
  norm_num at habs

/-! ## Claim C6: graceful degradation of the two optional stages -/

/-- Claim C6 (corrected): when the similarity stage fails (exception recovered to
an empty case list) and the narrative stage fails (empty LLM data), diagnose still
returns a non-error enhanced result computed from the ML record with empty LLM and
MIMIC contributions alone; but the source tag is determined by provider
availability, not by actual contribution: ml_model without a provider, ml_llm with
a configured provider whose call failed — never the full-hybrid tag. -/
theorem C6_graceful_amended (db : List SymptomEntry) (model : List String → List (String × ℚ))
    (provider : Bool) (err : String) (sy vs : String) (alter : Option String) (zi : String)
    (rec : PVRecord)
    (hml : patient_verarbeiten db model sy vs alter zi = Except.ok (PVOut.ok rec)) :
    diagnose db model provider (Except.error err) none sy vs alter zi =
      Except.ok { res := DRes.enhanced (enhance rec emptyLlm [] sy vs alter zi),
                  source := if provider then "ml_llm" else "ml_model",
                  log := PipelineStage.mimicStage ::
                    (if provider then [PipelineStage.llmStage] else []) } ∧
    (if provider then "ml_llm" else "ml_model") ≠ "hybrid" := by
  constructor
  · simp only [diagnose, hml]
    cases provider <;> simp [sourceTag]
  · cases provider <;> simp

/-- Claim C6 witness: the degradation theorem instantiated at a concrete run with
a configured provider and both stages failing. -/
theorem C6_graceful_witness :
    diagnose dbW modelW true (Except.error "down") none "husten" "" (some "Erwachsener") "" =
      Except.ok { res := DRes.enhanced (enhance recW emptyLlm [] "husten" ""
                    (some "Erwachsener") ""),
                  source := "ml_llm",
                  log := [PipelineStage.mimicStage, PipelineStage.llmStage] } ∧
    ("ml_llm" : String) ≠ "hybrid" := by
  have h := C6_graceful_amended dbW modelW true "down" "husten" "" (some "Erwachsener") "" recW
    (by decide)
  simpa using h

/-- Claim C6 counterexample: with a configured provider, a failed LLM call and a
failed similarity lookup, the run degrades to classifier + rules + vitals alone,
yet the source tag reads ml_llm — it does not reflect the ml-only degraded path. -/
theorem C6_graceful_counterexample :
    (diagnose dbW modelW true (Except.error "down") none "husten" "" (some "Erwachsener") "").map
      (fun r => r.source) = Except.ok "ml_llm" ∧
    ("ml_llm" : String) ≠ "ml_model" ∧
    (diagnose dbW modelW true (Except.error "down") none "husten" "" (some "Erwachsener") "").map
      (fun r => match r.res with
        | DRes.enhanced _ => true
        | DRes.fehler _ _ => false) = Except.ok true := by
  exact ⟨by decide, by decide, by decide⟩

/-! ## Claim C10: the confidence tier never takes the value niedrig -/

theorem konfidenzOf_ne_niedrig (d : DSM) : konfidenzOf d ≠ some Konf.niedrig := by
  rcases hsd : sortDesc d with _ | ⟨⟨ka, va⟩, _ | ⟨⟨kb, wb⟩, r2⟩⟩ <;>
    simp only [konfidenzOf, hsd] <;>
    first
      | (split_ifs <;> simp)
      | simp

theorem allergyResult_konfidenz (ml : PVRecord) (b : Bool) :
    (allergyResult ml b).konfidenz = none := by
  cases b <;> rfl

theorem utiResult_konfidenz (ml : PVRecord) (b : Bool) :
    (utiResult ml b).konfidenz = none := by
  cases b <;> rfl

theorem strokeResult_konfidenz (ml : PVRecord) (d : DSM) :
    (strokeResult ml d).konfidenz = none := rfl

theorem finalResult_ne_niedrig (ml : PVRecord) (llm : LlmData) (d7 : DSM)
    (top : Option String) : (finalResult ml llm d7 top).konfidenz ≠ some Konf.niedrig := by
  rcases hsd : sortDesc d7 with _ | ⟨⟨k, v⟩, rest⟩ <;>
    simp only [finalResult, hsd] <;>
    first
      | exact konfidenzOf_ne_niedrig d7
      | simp

/-- Claim C10 (corrected): no execution path of enhance_ml_results ever attaches
the niedrig (low) confidence tier: the tier is hoch or mittel on the generic
FINALIZE path and absent (none) on the short-circuit special-case paths. -/
theorem C10_tier_never_low (ml : PVRecord) (llm : LlmData) (mim : List MimicCase)
    (sy vs : String) (alter : Option String) (zi : String) :
    (enhance ml llm mim sy vs alter zi).konfidenz ≠ some Konf.niedrig := by
  simp only [enhance]
  split_ifs <;>
    first
      | exact allergyResult_konfidenz _ _ ▸ (by simp)
      | exact utiResult_konfidenz _ _ ▸ (by simp)
      | exact strokeResult_konfidenz _ _ ▸ (by simp)
      | exact finalResult_ne_niedrig _ _ _ _

/-- Claim C10 counterexample: the allergy short-circuit path produces a non-empty
final diagnosis map with NO confidence tier attached at all, so the claim that a
tier in {high, medium} is attached whenever the final map is non-empty fails. -/
theorem C10_tier_counterexample :
    (diagnose dbW modelW false (Except.error "down") none "ausschlag, juckreiz, dyspnoe" ""
        (some "Erwachsener") "").map
      (fun r => match r.res with
        | DRes.enhanced e => some (!e.diagnosen.isEmpty, e.konfidenz)
        | DRes.fehler _ _ => none) = Except.ok (some (true, (none : Option Konf))) ∧
    ¬((none : Option Konf) = some Konf.hoch ∨ (none : Option Konf) = some Konf.mittel) := by
  exact ⟨by decide, by simp⟩

/-! ## Claim C7: the confidence tier rule -/

/-- Claim C7 (confirmed): for every non-empty map reaching the confidence-tier
block, the tier is hoch exactly when the top score exceeds 40 and either there is
no runner-up (fewer than two entries) or the top score leads the runner-up (the
maximum after removing one copy of the top score) by more than 15 points; in every
other non-empty case the tier is mittel. -/
theorem C7_confidence_tier (m : DSM) (hne : m ≠ []) :
    ((konfidenzOf m = some Konf.hoch) ↔
      (∃ v, IsTopScore m v ∧ 40 < v ∧
        (m.length < 2 ∨ ∃ w, IsRunnerUp m v w ∧ 15 < v - w))) ∧
    (konfidenzOf m = some Konf.hoch ∨ konfidenzOf m = some Konf.mittel) := by
  have hperm := sortDesc_perm m
  have hsort : SortedD (sortDesc m) := sortDesc_sortedD m
  rcases hs : sortDesc m with _ | ⟨⟨ka, va⟩, rest⟩
  · rw [hs] at hperm
    have hlen := hperm.length_eq
    simp only [List.length_nil] at hlen
    exact absurd (List.length_eq_zero.mp hlen.symm) hne
  · rw [hs] at hperm hsort
    have hvals : (valsOf m).Perm (va :: valsOf rest) := by
      have h1 := hperm.map (fun p => p.2)
      simpa [valsOf] using h1.symm
    have hpair := hsort
    rw [SortedD, List.pairwise_cons] at hpair
    have htop : IsTopScore m va := by
      constructor
      · exact hvals.symm.subset (List.mem_cons_self va (valsOf rest))
      · intro w hw
        rcases List.mem_cons.mp (hvals.subset hw) with h | h
        · exact le_of_eq h
        · obtain ⟨p, hp, rfl⟩ := List.mem_map.mp h
          exact hpair.1 p hp
    have htop_uniq : ∀ v, IsTopScore m v → v = va := by
      intro v hv
      exact le_antisymm (htop.2 v hv.1) (hv.2 va htop.1)
    cases rest with
    | nil =>
      have hlen : m.length = 1 := by
        have := hperm.length_eq
        simpa using this.symm
      have hk : konfidenzOf m = if 40 < va then some Konf.hoch else some Konf.mittel := by
        simp only [konfidenzOf, hs]
      constructor
      · rw [hk]
        constructor
        · intro hh
          by_cases h40 : 40 < va
          · exact ⟨va, htop, h40, Or.inl (by omega)⟩
          · rw [if_neg h40] at hh
            exact absurd hh (by simp)
        · rintro ⟨v, hv, h40, -⟩
          rw [htop_uniq v hv] at h40
          rw [if_pos h40]
      · rw [hk]
        split_ifs <;> simp
    | cons b rest2 =>
      obtain ⟨kb, wb⟩ := b
      have hlen2 : 2 ≤ m.length := by
        have := hperm.length_eq
        simp only [List.length_cons] at this
        omega
      have herase : ((valsOf m).erase va).Perm (wb :: valsOf rest2) := by
        have h1 := hvals.erase va
        simpa [valsOf, List.erase_cons_head] using h1
      have hpair2 : ∀ p ∈ rest2, p.2 ≤ wb := by
        have h2 := hpair.2
        rw [List.pairwise_cons] at h2
        exact h2.1
      have hrun : IsRunnerUp m va wb := by
        constructor
        · exact herase.symm.subset (List.mem_cons_self wb (valsOf rest2))
        · intro u hu
          rcases List.mem_cons.mp (herase.subset hu) with h | h
          · exact le_of_eq h
          · obtain ⟨p, hp, rfl⟩ := List.mem_map.mp h
            exact hpair2 p hp
      have hrun_uniq : ∀ w, IsRunnerUp m va w → w = wb := by
        intro w hw
        exact le_antisymm (hrun.2 w hw.1) (hw.2 wb hrun.1)
      have hk : konfidenzOf m =
          if 40 < va ∧ 15 < va - wb then some Konf.hoch else some Konf.mittel := by
        simp only [konfidenzOf, hs]
      constructor
      · rw [hk]
        constructor
        · intro hh
          by_cases hc : 40 < va ∧ 15 < va - wb
          · exact ⟨va, htop, hc.1, Or.inr ⟨wb, hrun, hc.2⟩⟩
          · rw [if_neg hc] at hh
            exact absurd hh (by simp)
        · rintro ⟨v, hv, h40, hor⟩
          have hv' := htop_uniq v hv
          subst hv'
          rcases hor with hlt | ⟨w, hw, h15⟩
          · omega
          · have hw' := hrun_uniq w hw
            subst hw'
            rw [if_pos ⟨h40, h15⟩]
      · rw [hk]
        split_ifs <;> simp

/-- Claim C7 witness: the tier rule evaluated at a concrete two-entry map. -/
theorem C7_confidence_tier_witness :
    konfidenzOf [("A", (50 : ℚ)), ("B", 10)] = some Konf.hoch ∨
    konfidenzOf [("A", (50 : ℚ)), ("B", 10)] = some Konf.mittel :=
  (C7_confidence_tier [("A", 50), ("B", 10)] (by decide)).2
